import Mathlib

/-!
Verification development for the TrafficAlert frontend screen.

The source is a single React Native screen (HomeScreen). Its core logic is a
driving-session controller: a repeating 30-second timer drives a polling
cycle (the tick function) that fetches the device position, queries the
backend for nearby alerts within a fixed 2000-meter radius, and updates the
screen state (driving flag, status string, busy flag, last alert hit, audio
handle). The definitions below are a shallow embedding of that logic:

- component state (useState hooks plus the timerRef and soundRef refs) is a
  record AppState; the set of live JavaScript intervals is modelled
  explicitly by the armed list together with a fresh-id counter nextId, so
  that setInterval and clearInterval are meaningful;
- the asynchronous collaborators (Location.getCurrentPositionAsync, fetch,
  res.json, Audio.Sound.createAsync, replayAsync) are modelled by an
  environment record TickEnv giving the outcome of each awaited call: a
  throwing call is an error value, a resolving call is an ok value;
- JavaScript numbers are modelled by the rationals, with exact arithmetic;
  toFixed rounding is round-half-up on the exact value.

The tick cycle is single-threaded between awaits, so it is embedded as a
pure state transformer that also returns the trace of issued requests.
-/

namespace TrafficAlert

/-- An alert event as declared in the source: required id, type and
coordinates, all other descriptive fields optional. -/
structure AlertEvent where
  id : String
  type : String
  title : Option String
  cause : Option String
  road : Option String
  pkText : Option String
  pkKm : Option ℚ
  direction : Option String
  orientation : Option String
  province : Option String
  municipality : Option String
  startTime : Option String
  source : Option String
  lat : ℚ
  lon : ℚ
  severity : Option ℚ
deriving DecidableEq

/-- A backend hit: an event paired with its distance in meters. -/
structure AlertHit where
  event : AlertEvent
  distanceMeters : ℚ
deriving DecidableEq

/-- Coordinates returned by the location provider. -/
structure Coords where
  latitude : ℚ
  longitude : ℚ
deriving DecidableEq

/-- The outcome of a resolved fetch call: an HTTP status code and the
outcome of reading the body as JSON (res.json may itself throw). -/
structure HttpResponse where
  status : Nat
  body : Except Unit (List AlertHit)

/-- The ok property of a fetch response: status in the range 200-299. -/
def HttpResponse.ok (r : HttpResponse) : Bool :=
  decide (200 ≤ r.status ∧ r.status < 300)

/-- Outcomes of the audio collaborator: Audio.Sound.createAsync either
throws or yields a handle (modelled by a number), and replayAsync either
resolves or throws. -/
structure AudioEnv where
  createSound : Except Unit Nat
  replayOk : Bool

/-- Outcomes of every awaited call one tick can make. -/
structure TickEnv where
  position : Except Unit Coords
  response : Except Unit HttpResponse
  audio : AudioEnv

/-- The screen state: the four useState hooks (driving, status, busy,
lastHit), the timerRef and soundRef refs, and the runtime timer table
(armed lists the ids of live intervals, nextId is the next fresh id). -/
structure AppState where
  driving : Bool
  status : String
  busy : Bool
  lastHit : Option AlertHit
  timer : Option Nat
  armed : List Nat
  nextId : Nat
  sound : Option Nat
deriving DecidableEq

/-- The state on mount: useState(false), useState("Listo"), useState(false),
useState(null), and null refs; no interval is armed yet. -/
def initialState : AppState :=
  { driving := false
    status := "Listo"
    busy := false
    lastHit := none
    timer := none
    armed := []
    nextId := 0
    sound := none }

/-- The beep function: lazily creates the sound handle when soundRef is
null, stores it, then replays; the whole body is wrapped in try/catch with
an empty handler, so a throwing createAsync leaves the state as it was and
a throwing replayAsync is swallowed after the handle was stored. -/
def beep (a : AudioEnv) (s : AppState) : AppState :=
  match s.sound with
  | none =>
      match a.createSound with
      | .error _ => s
      | .ok h => { s with sound := some h }
  | some _ => s

/-- How many times one beep call invokes Audio.Sound.createAsync: once when
soundRef is null, never otherwise. -/
def beepCreations (s : AppState) : Nat :=
  match s.sound with
  | none => 1
  | some _ => 0

/-- The toFixed(1) formatting of a kilometer value, as used in the subline:
round half up to one decimal on the exact rational value, then print as
integer part, dot, one digit. Faithful to JavaScript toFixed for the
nonnegative values the screen displays. -/
def toFixed1 (km : ℚ) : String :=
  let n : Nat := ((km * 10 + 1 / 2).floor).toNat
  toString (n / 10) ++ "." ++ toString (n % 10)

/-- The URL built by tick: base, /alerts path, lat, lon and the fixed
radiusMeters=2000 query parameters. -/
def alertsUrl (base : String) (c : Coords) : String :=
  base ++ "/alerts?lat=" ++ toString c.latitude ++ "&lon=" ++ toString c.longitude
    ++ "&radiusMeters=2000"

/-- The URL built by the demo variant of the screen: the same URL with the
demo=true parameter appended. -/
def alertsUrlDemo (base : String) (c : Coords) : String :=
  base ++ "/alerts?lat=" ++ toString c.latitude ++ "&lon=" ++ toString c.longitude
    ++ "&radiusMeters=2000&demo=true"

/-- The trace of external requests one tick issues. -/
structure TickTrace where
  locationRequests : Nat
  backendRequests : List String
deriving DecidableEq

/-- One full tick cycle, returning the final state and the request trace.
Mirrors the source line by line: setBusy(true); status while locating;
await the position (a throwing await jumps to the catch branch, which sets
the generic error status); status while querying; await fetch of the alerts
URL; on a non-ok response set the Backend status and return; await
res.json; on an empty list clear lastHit and set the no-incidents status;
otherwise store the first hit, set status ALERTA and await beep. The
finally clause clears busy on every path. -/
def tickRun (base : String) (env : TickEnv) (s : AppState) : AppState × TickTrace :=
  let s := { s with busy := true }
  let s := { s with status := "Obteniendo ubicación…" }
  match env.position with
  | .error _ =>
      ({ s with status := "Error consultando backend", busy := false },
       { locationRequests := 1, backendRequests := [] })
  | .ok c =>
      let s := { s with status := "Consultando incidencias…" }
      let url := alertsUrl base c
      match env.response with
      | .error _ =>
          ({ s with status := "Error consultando backend", busy := false },
           { locationRequests := 1, backendRequests := [url] })
      | .ok r =>
          if !r.ok then
            ({ s with status := "Backend " ++ toString r.status, busy := false },
             { locationRequests := 1, backendRequests := [url] })
          else
            match r.body with
            | .error _ =>
                ({ s with status := "Error consultando backend", busy := false },
                 { locationRequests := 1, backendRequests := [url] })
            | .ok [] =>
                ({ s with status := "Sin incidencias cercanas", lastHit := none, busy := false },
                 { locationRequests := 1, backendRequests := [url] })
            | .ok (hit :: _) =>
                let s := { s with lastHit := some hit, status := "ALERTA" }
                let s := beep env.audio s
                ({ s with busy := false },
                 { locationRequests := 1, backendRequests := [url] })

/-- The state transformation of one tick. -/
def tick (base : String) (env : TickEnv) (s : AppState) : AppState :=
  (tickRun base env s).1

/-- The continuation of a tick from its first await onward: everything the
tick still writes once the position promise settles. The writes before the
first await (busy := true and the locating status) have already happened
when a tick is in flight. -/
def tickResume (base : String) (env : TickEnv) (s : AppState) : AppState :=
  match env.position with
  | .error _ => { s with status := "Error consultando backend", busy := false }
  | .ok _ =>
      let s := { s with status := "Consultando incidencias…" }
      match env.response with
      | .error _ => { s with status := "Error consultando backend", busy := false }
      | .ok r =>
          if !r.ok then
            { s with status := "Backend " ++ toString r.status, busy := false }
          else
            match r.body with
            | .error _ => { s with status := "Error consultando backend", busy := false }
            | .ok [] =>
                { s with status := "Sin incidencias cercanas", lastHit := none, busy := false }
            | .ok (hit :: _) =>
                let s := { s with lastHit := some hit, status := "ALERTA" }
                let s := beep env.audio s
                { s with busy := false }

/-- startDriving: set driving, set the active status, run one immediate
tick, then arm a fresh repeating interval and store its handle in timerRef.
The immediate tick call touches no timer state and the arming touches no
tick state, so running the tick to completion before arming yields the same
final state as the real interleaving. -/
def startDriving (base : String) (env : TickEnv) (s : AppState) : AppState :=
  let s1 := { s with driving := true, status := "Conducción activa" }
  let s2 := tick base env s1
  { s2 with
      timer := some s2.nextId
      armed := s2.armed ++ [s2.nextId]
      nextId := s2.nextId + 1 }

/-- stopDriving: clear driving, clear the interval stored in timerRef when
there is one, null the ref, clear busy and set the stopped status. -/
def stopDriving (s : AppState) : AppState :=
  let s1 := { s with driving := false }
  let s2 :=
    match s1.timer with
    | some id => { s1 with armed := s1.armed.filter (fun i => i != id) }
    | none => s1
  { s2 with timer := none, busy := false, status := "Parado" }

/-- The headline shown for the last alert: the event title when present,
the generic word when a hit lacks a title, a dash when there is no hit. -/
def headline (s : AppState) : String :=
  match s.lastHit with
  | some hit => hit.event.title.getD "Incidencia"
  | none => "—"

/-- The subline shown for the last alert: headline, event id in brackets,
and the distance in kilometers formatted to one decimal; a dash when there
is no hit. -/
def subline (s : AppState) : String :=
  match s.lastHit with
  | some hit =>
      headline s ++ " (" ++ hit.event.id ++ ") a "
        ++ toFixed1 (hit.distanceMeters / 1000) ++ " km"
  | none => "—"

/-! Concrete fixtures used to instantiate the theorems below: the scenario
of the specification, a hit at coordinates (40, -3) with an event titled
Incident at 1500 meters. -/

/-- The event of the specification scenario. -/
def sampleEvent : AlertEvent :=
  { id := "a1", type := "incident", title := some "Incident", cause := none, road := none,
    pkText := none, pkKm := none, direction := none, orientation := none, province := none,
    municipality := none, startTime := none, source := none, lat := 40, lon := -3,
    severity := none }

/-- The hit of the specification scenario: the sample event at 1500 meters. -/
def sampleHit : AlertHit := { event := sampleEvent, distanceMeters := 1500 }

/-- A working audio collaborator. -/
def audioOk : AudioEnv := { createSound := .ok 0, replayOk := true }

/-- A failing audio collaborator: creation throws and replay throws. -/
def audioBad : AudioEnv := { createSound := .error (), replayOk := false }

/-- Environment: location ok, backend 200 with one hit, audio ok. -/
def envAlert : TickEnv :=
  { position := .ok { latitude := 40, longitude := -3 }
    response := .ok { status := 200, body := .ok [sampleHit] }
    audio := audioOk }

/-- Environment: location ok, backend 200 with one hit, audio broken. -/
def envAlertBadAudio : TickEnv :=
  { position := .ok { latitude := 40, longitude := -3 }
    response := .ok { status := 200, body := .ok [sampleHit] }
    audio := audioBad }

/-- Environment: location ok, backend 200 with an empty array. -/
def envEmpty : TickEnv :=
  { position := .ok { latitude := 40, longitude := -3 }
    response := .ok { status := 200, body := .ok [] }
    audio := audioOk }

/-- Environment: location ok, backend responds with HTTP 500. -/
def env500 : TickEnv :=
  { position := .ok { latitude := 40, longitude := -3 }
    response := .ok { status := 500, body := .error () }
    audio := audioOk }

/-- Environment: location ok, the fetch call itself throws. -/
def envDown : TickEnv :=
  { position := .ok { latitude := 40, longitude := -3 }
    response := .error ()
    audio := audioOk }

/-- Environment: the location fetch throws. -/
def envNoLoc : TickEnv :=
  { position := .error ()
    response := .error ()
    audio := audioOk }

/-! Helper lemmas shared by the claim theorems. -/

/-- beep touches at most the stored sound handle. -/
theorem beep_shape (a : AudioEnv) (s : AppState) :
    ∃ so, beep a s = { s with sound := so } := by
  unfold beep
  split
  · split
    · exact ⟨s.sound, rfl⟩
    · exact ⟨_, rfl⟩
  · exact ⟨s.sound, rfl⟩

theorem beep_status (a : AudioEnv) (s : AppState) : (beep a s).status = s.status := by
  obtain ⟨so, h⟩ := beep_shape a s
  rw [h]

theorem beep_lastHit (a : AudioEnv) (s : AppState) : (beep a s).lastHit = s.lastHit := by
  obtain ⟨so, h⟩ := beep_shape a s
  rw [h]

theorem beep_busy (a : AudioEnv) (s : AppState) : (beep a s).busy = s.busy := by
  obtain ⟨so, h⟩ := beep_shape a s
  rw [h]

theorem beep_driving (a : AudioEnv) (s : AppState) : (beep a s).driving = s.driving := by
  obtain ⟨so, h⟩ := beep_shape a s
  rw [h]

/-- One tick writes only the status, the busy flag, the last hit and the
sound handle: driving, the timer handle and the timer table pass through. -/
theorem tick_shape (base : String) (env : TickEnv) (s : AppState) :
    ∃ st lh so,
      tick base env s = { s with status := st, busy := false, lastHit := lh, sound := so } := by
  unfold tick tickRun beep
  rcases env with ⟨pos, resp, audio⟩
  rcases pos with _ | c
  · exact ⟨_, _, _, rfl⟩
  · rcases resp with _ | r
    · exact ⟨_, _, _, rfl⟩
    · dsimp only
      split
      · exact ⟨_, _, _, rfl⟩
      · split
        · exact ⟨_, _, _, rfl⟩
        · exact ⟨_, _, _, rfl⟩
        · split
          · split
            · exact ⟨_, _, _, rfl⟩
            · exact ⟨_, _, _, rfl⟩
          · exact ⟨_, _, _, rfl⟩

theorem tick_busy (base : String) (env : TickEnv) (s : AppState) :
    (tick base env s).busy = false := by
  obtain ⟨st, lh, so, h⟩ := tick_shape base env s
  rw [h]

theorem tick_driving (base : String) (env : TickEnv) (s : AppState) :
    (tick base env s).driving = s.driving := by
  obtain ⟨st, lh, so, h⟩ := tick_shape base env s
  rw [h]

theorem tick_timer (base : String) (env : TickEnv) (s : AppState) :
    (tick base env s).timer = s.timer := by
  obtain ⟨st, lh, so, h⟩ := tick_shape base env s
  rw [h]

theorem tick_armed (base : String) (env : TickEnv) (s : AppState) :
    (tick base env s).armed = s.armed := by
  obtain ⟨st, lh, so, h⟩ := tick_shape base env s
  rw [h]

theorem tick_nextId (base : String) (env : TickEnv) (s : AppState) :
    (tick base env s).nextId = s.nextId := by
  obtain ⟨st, lh, so, h⟩ := tick_shape base env s
  rw [h]

/-- On the alert path the status is ALERTA, whatever the audio does. -/
theorem tick_alert_status (base : String) (env : TickEnv) (s : AppState) (c : Coords)
    (r : HttpResponse) (hit : AlertHit) (rest : List AlertHit)
    (hp : env.position = .ok c) (hr : env.response = .ok r) (hok : r.ok = true)
    (hb : r.body = .ok (hit :: rest)) :
    (tick base env s).status = "ALERTA" := by
  simp [tick, tickRun, hp, hr, hok, hb, beep_status]

/-- On the alert path the stored hit is the first element, whatever the
audio does. -/
theorem tick_alert_lastHit (base : String) (env : TickEnv) (s : AppState) (c : Coords)
    (r : HttpResponse) (hit : AlertHit) (rest : List AlertHit)
    (hp : env.position = .ok c) (hr : env.response = .ok r) (hok : r.ok = true)
    (hb : r.body = .ok (hit :: rest)) :
    (tick base env s).lastHit = some hit := by
  simp [tick, tickRun, hp, hr, hok, hb, beep_lastHit]

/-- A Backend error status is never the stopped status. -/
theorem backend_status_ne_parado (x : String) : "Backend " ++ x ≠ "Parado" := by
  intro h
  have h2 := congrArg String.length h
  rw [String.length_append] at h2
  have e1 : "Backend ".length = 8 := rfl
  have e2 : "Parado".length = 6 := rfl
  omega

/-- Claim C7: on every completion path of tick — HTTP error return,
empty-list return, alert path and the exception path — the busy flag is
false once tick finishes, because it is cleared unconditionally in the
finally step. -/
theorem claim_C7 (base : String) (env : TickEnv) (s : AppState) :
    (tick base env s).busy = false :=
  tick_busy base env s

/-- Claim C3: when the backend responds successfully with an empty array,
tick clears the last-alert state and sets the no-incidents status, for
every prior state and every coordinate queried. -/
theorem claim_C3 (base : String) (env : TickEnv) (s : AppState) (c : Coords) (r : HttpResponse)
    (hp : env.position = .ok c) (hr : env.response = .ok r) (hok : r.ok = true)
    (hb : r.body = .ok []) :
    tick base env s =
      { s with status := "Sin incidencias cercanas", lastHit := none, busy := false } := by
  rcases s with ⟨d, st, b, lh, tm, ar, ni, so⟩
  simp [tick, tickRun, hp, hr, hok, hb]

/-- Witness for claim C3 at the concrete empty-array environment. -/
theorem claim_C3_witness :
    tick "http://b" envEmpty initialState =
      { initialState with status := "Sin incidencias cercanas", lastHit := none, busy := false } :=
  claim_C3 "http://b" envEmpty initialState { latitude := 40, longitude := -3 }
    { status := 200, body := .ok [] } rfl rfl rfl rfl

/-- Claim C2: on an HTTP non-success response tick sets the status to a
string embedding the numeric status code, leaves the previous last-alert
state unmodified, and repeating the failing tick leaves the state unchanged
again. -/
theorem claim_C2 (base : String) (env : TickEnv) (s : AppState) (c : Coords) (r : HttpResponse)
    (hp : env.position = .ok c) (hr : env.response = .ok r) (hok : r.ok = false) :
    tick base env s = { s with status := "Backend " ++ toString r.status, busy := false } ∧
    (∃ p, (tick base env s).status = p ++ toString r.status) ∧
    (tick base env s).lastHit = s.lastHit ∧
    tick base env (tick base env s) = tick base env s := by
  have h1 : tick base env s =
      { s with status := "Backend " ++ toString r.status, busy := false } := by
    rcases s with ⟨d, st, b, lh, tm, ar, ni, so⟩
    simp [tick, tickRun, hp, hr, hok]
  refine ⟨h1, ⟨"Backend ", by rw [h1]⟩, by rw [h1], ?_⟩
  rw [h1]
  rcases s with ⟨d, st, b, lh, tm, ar, ni, so⟩
  simp [tick, tickRun, hp, hr, hok]

/-- Witness for claim C2 at a concrete HTTP 500 response. -/
theorem claim_C2_witness :
    tick "http://b" env500 initialState =
      { initialState with status := "Backend 500", busy := false } ∧
    tick "http://b" env500 (tick "http://b" env500 initialState) =
      tick "http://b" env500 initialState :=
  ⟨(claim_C2 "http://b" env500 initialState { latitude := 40, longitude := -3 }
      { status := 500, body := .error () } rfl rfl rfl).1,
   (claim_C2 "http://b" env500 initialState { latitude := 40, longitude := -3 }
      { status := 500, body := .error () } rfl rfl rfl).2.2.2⟩

/-- Claim C6: every exception raised during the location fetch, the network
call or the body parse is caught inside tick and converted into the generic
error status; the rest of the state — driving flag, timer handle, armed
timer table, last alert — is untouched, so no failure terminates the
session, cancels the timer, or escapes tick. -/
theorem claim_C6 (base : String) (env : TickEnv) (s : AppState)
    (h : env.position = .error () ∨ env.response = .error () ∨
        ∃ r, env.response = .ok r ∧ r.ok = true ∧ r.body = .error ()) :
    tick base env s = { s with status := "Error consultando backend", busy := false } := by
  rcases s with ⟨d, st, b, lh, tm, ar, ni, so⟩
  rcases h with h | h | ⟨r, hr, hok, hb⟩
  · simp [tick, tickRun, h]
  · rcases hp : env.position with u | c
    · simp [tick, tickRun, hp]
    · simp [tick, tickRun, hp, h]
  · rcases hp : env.position with u | c
    · simp [tick, tickRun, hp]
    · simp [tick, tickRun, hp, hr, hok, hb]

/-- Witness for claim C6 at a concrete environment where fetch throws. -/
theorem claim_C6_witness :
    tick "http://b" envDown initialState =
      { initialState with status := "Error consultando backend", busy := false } :=
  claim_C6 "http://b" envDown initialState (Or.inr (Or.inl rfl))

/-- Claim C1: on a non-empty successful response tick stores exactly the
first hit, sets the ALERTA status, and the subline displays the distance as
distanceMeters divided by 1000 formatted to one decimal; in particular a
hit at 1500 meters displays as 1.5 km. -/
theorem claim_C1 (base : String) (env : TickEnv) (s : AppState) (c : Coords) (r : HttpResponse)
    (hit : AlertHit) (rest : List AlertHit)
    (hp : env.position = .ok c) (hr : env.response = .ok r) (hok : r.ok = true)
    (hb : r.body = .ok (hit :: rest)) :
    (tick base env s).lastHit = some hit ∧
    (tick base env s).status = "ALERTA" ∧
    subline (tick base env s) =
      headline (tick base env s) ++ " (" ++ hit.event.id ++ ") a "
        ++ toFixed1 (hit.distanceMeters / 1000) ++ " km" ∧
    toFixed1 ((1500 : ℚ) / 1000) ++ " km" = "1.5 km" := by
  have hl := tick_alert_lastHit base env s c r hit rest hp hr hok hb
  refine ⟨hl, tick_alert_status base env s c r hit rest hp hr hok hb, ?_, ?_⟩
  · simp [subline, hl]
  · have hf : ((1500 : ℚ) / 1000 * 10 + 1 / 2).floor = 15 := by norm_num [Rat.floor]
    simp only [toFixed1, hf]
    decide

/-- Witness for claim C1 at the scenario of the specification. -/
theorem claim_C1_witness :
    (tick "http://b" envAlert initialState).lastHit = some sampleHit ∧
    (tick "http://b" envAlert initialState).status = "ALERTA" ∧
    toFixed1 ((1500 : ℚ) / 1000) ++ " km" = "1.5 km" :=
  ⟨(claim_C1 "http://b" envAlert initialState { latitude := 40, longitude := -3 }
      { status := 200, body := .ok [sampleHit] } sampleHit [] rfl rfl rfl rfl).1,
   (claim_C1 "http://b" envAlert initialState { latitude := 40, longitude := -3 }
      { status := 200, body := .ok [sampleHit] } sampleHit [] rfl rfl rfl rfl).2.1,
   (claim_C1 "http://b" envAlert initialState { latitude := 40, longitude := -3 }
      { status := 200, body := .ok [sampleHit] } sampleHit [] rfl rfl rfl rfl).2.2.2⟩

/-- On a resolved location the tick trace holds one location request and
one backend request to the alerts URL. -/
theorem tickRun_trace_ok (base : String) (env : TickEnv) (s : AppState) (c : Coords)
    (hp : env.position = .ok c) :
    (tickRun base env s).2 =
      { locationRequests := 1, backendRequests := [alertsUrl base c] } := by
  unfold tickRun beep
  rw [hp]
  dsimp only
  cases henv : env.response with
  | error e => rfl
  | ok r =>
    dsimp only
    split
    · rfl
    · split
      · rfl
      · rfl
      · split
        · split <;> rfl
        · rfl

/-- On a throwing location the tick trace holds one location request and no
backend request. -/
theorem tickRun_trace_err (base : String) (env : TickEnv) (s : AppState)
    (hp : env.position = .error ()) :
    (tickRun base env s).2 = { locationRequests := 1, backendRequests := [] } := by
  unfold tickRun
  rw [hp]

/-- Claim C9: each tick issues exactly one location request and, on
location success, exactly one backend request, whose URL is the alerts path
under the base URL with the lat, lon and fixed radiusMeters=2000 query
parameters; the demo variant of the screen appends only the extra demo=true
parameter to the same URL. -/
theorem claim_C9 (base : String) (env : TickEnv) (s : AppState) :
    (tickRun base env s).2.locationRequests = 1 ∧
    (∀ c, env.position = .ok c →
      (tickRun base env s).2.backendRequests = [alertsUrl base c] ∧
      alertsUrl base c = base ++ "/alerts?lat=" ++ toString c.latitude ++ "&lon="
        ++ toString c.longitude ++ "&radiusMeters=2000" ∧
      alertsUrlDemo base c = alertsUrl base c ++ "&demo=true") ∧
    (env.position = .error () → (tickRun base env s).2.backendRequests = []) := by
  refine ⟨?_, ?_, ?_⟩
  · cases hp : env.position with
    | error e => rw [tickRun_trace_err base env s hp]
    | ok c => rw [tickRun_trace_ok base env s c hp]
  · intro c hp
    refine ⟨by rw [tickRun_trace_ok base env s c hp], rfl, ?_⟩
    unfold alertsUrl alertsUrlDemo
    have e : ("&radiusMeters=2000" ++ "&demo=true" : String)
        = "&radiusMeters=2000&demo=true" := by decide
    simp [String.append_assoc, e]
  · intro hp
    rw [tickRun_trace_err base env s hp]

/-- Witness for claim C9 at the concrete alert environment. -/
theorem claim_C9_witness :
    (tickRun "http://b" envAlert initialState).2.locationRequests = 1 ∧
    (tickRun "http://b" envAlert initialState).2.backendRequests =
      [alertsUrl "http://b" { latitude := 40, longitude := -3 }] :=
  ⟨(claim_C9 "http://b" envAlert initialState).1,
   ((claim_C9 "http://b" envAlert initialState).2.1
      { latitude := 40, longitude := -3 } rfl).1⟩

/-- Claim C8: beep lazily creates one audio handle on the first call,
reuses the stored handle on every later call, and fails silently — it
changes nothing but the sound handle, so on the alert path the already
written ALERTA status and stored hit survive any audio failure. -/
theorem claim_C8 (a : AudioEnv) (s : AppState) (hdl : Nat) (base : String) (env : TickEnv)
    (c : Coords) (r : HttpResponse) (hit : AlertHit) (rest : List AlertHit) :
    (s.sound = none → a.createSound = .ok hdl →
      (beep a s).sound = some hdl ∧ beepCreations s = 1) ∧
    (s.sound = some hdl → beep a s = s ∧ beepCreations s = 0) ∧
    ((beep a s).status = s.status ∧ (beep a s).lastHit = s.lastHit ∧
      (beep a s).busy = s.busy ∧ (beep a s).driving = s.driving) ∧
    (env.position = .ok c → env.response = .ok r → r.ok = true →
      r.body = .ok (hit :: rest) →
      (tick base env s).status = "ALERTA" ∧ (tick base env s).lastHit = some hit) := by
  refine ⟨?_, ?_, ⟨beep_status a s, beep_lastHit a s, beep_busy a s, beep_driving a s⟩, ?_⟩
  · intro hs hc
    constructor
    · simp [beep, hs, hc]
    · simp [beepCreations, hs]
  · intro hs
    constructor
    · simp [beep, hs]
    · simp [beepCreations, hs]
  · intro hp hr hok hb
    exact ⟨tick_alert_status base env s c r hit rest hp hr hok hb,
           tick_alert_lastHit base env s c r hit rest hp hr hok hb⟩

/-- Witness for claim C8: a first call creates and stores handle 7, a later
call with a stored handle is a no-op that creates nothing, and the alert
path of tick keeps ALERTA and the stored hit even with broken audio. -/
theorem claim_C8_witness :
    (beep { createSound := .ok 7, replayOk := false } initialState).sound = some 7 ∧
    beepCreations initialState = 1 ∧
    beep { createSound := .error (), replayOk := false }
        { initialState with sound := some 7 } =
      { initialState with sound := some 7 } ∧
    beepCreations { initialState with sound := some 7 } = 0 ∧
    (tick "http://b" envAlertBadAudio initialState).status = "ALERTA" ∧
    (tick "http://b" envAlertBadAudio initialState).lastHit = some sampleHit := by
  refine ⟨?_, ?_, ?_, ?_, ?_, ?_⟩
  · exact ((claim_C8 { createSound := .ok 7, replayOk := false } initialState 7 "http://b"
      envAlertBadAudio { latitude := 40, longitude := -3 }
      { status := 200, body := .ok [sampleHit] } sampleHit []).1 rfl rfl).1
  · exact ((claim_C8 { createSound := .ok 7, replayOk := false } initialState 7 "http://b"
      envAlertBadAudio { latitude := 40, longitude := -3 }
      { status := 200, body := .ok [sampleHit] } sampleHit []).1 rfl rfl).2
  · exact ((claim_C8 { createSound := .error (), replayOk := false }
      { initialState with sound := some 7 } 7 "http://b"
      envAlertBadAudio { latitude := 40, longitude := -3 }
      { status := 200, body := .ok [sampleHit] } sampleHit []).2.1 rfl).1
  · exact ((claim_C8 { createSound := .error (), replayOk := false }
      { initialState with sound := some 7 } 7 "http://b"
      envAlertBadAudio { latitude := 40, longitude := -3 }
      { status := 200, body := .ok [sampleHit] } sampleHit []).2.1 rfl).2
  · exact ((claim_C8 audioBad initialState 7 "http://b"
      envAlertBadAudio { latitude := 40, longitude := -3 }
      { status := 200, body := .ok [sampleHit] } sampleHit []).2.2.2 rfl rfl rfl rfl).1
  · exact ((claim_C8 audioBad initialState 7 "http://b"
      envAlertBadAudio { latitude := 40, longitude := -3 }
      { status := 200, body := .ok [sampleHit] } sampleHit []).2.2.2 rfl rfl rfl rfl).2

/-- startDriving sets driving and arms one fresh interval whose id it
stores in timerRef; the immediate tick only touches status, busy, lastHit
and the sound handle. -/
theorem startDriving_shape (base : String) (env : TickEnv) (s : AppState) :
    ∃ st lh so, startDriving base env s =
      { s with
          driving := true
          status := st
          busy := false
          lastHit := lh
          sound := so
          timer := some s.nextId
          armed := s.armed ++ [s.nextId]
          nextId := s.nextId + 1 } := by
  obtain ⟨st, lh, so, h⟩ :=
    tick_shape base env { s with driving := true, status := "Conducción activa" }
  refine ⟨st, lh, so, ?_⟩
  unfold startDriving
  dsimp only
  rw [h]

/-- Claim C4: stopDriving disarms the stored timer, sets driving, busy and
the stopped status; composed with itself it equals a single stopDriving;
in a quiescent non-driving state it changes nothing but the status string;
and after a startDriving followed by stopDriving no armed interval remains,
so no further timer-driven requests occur. -/
theorem claim_C4 (base : String) (env : TickEnv) (s : AppState) :
    (stopDriving s).driving = false ∧
    (stopDriving s).busy = false ∧
    (stopDriving s).status = "Parado" ∧
    (stopDriving s).timer = none ∧
    stopDriving (stopDriving s) = stopDriving s ∧
    (s.driving = false → s.busy = false → s.timer = none →
      stopDriving s = { s with status := "Parado" }) ∧
    (s.armed = [] → (stopDriving (startDriving base env s)).armed = []) := by
  refine ⟨?_, ?_, ?_, ?_, ?_, ?_, ?_⟩
  · rcases s with ⟨d, st, b, lh, tm, ar, ni, so⟩
    cases tm <;> rfl
  · rcases s with ⟨d, st, b, lh, tm, ar, ni, so⟩
    cases tm <;> rfl
  · rcases s with ⟨d, st, b, lh, tm, ar, ni, so⟩
    cases tm <;> rfl
  · rcases s with ⟨d, st, b, lh, tm, ar, ni, so⟩
    cases tm <;> rfl
  · rcases s with ⟨d, st, b, lh, tm, ar, ni, so⟩
    cases tm <;> rfl
  · rcases s with ⟨d, st, b, lh, tm, ar, ni, so⟩
    intro h1 h2 h3
    dsimp only at h1 h2 h3
    subst h1
    subst h2
    subst h3
    rfl
  · intro h
    obtain ⟨st, lh, so, h1⟩ := startDriving_shape base env s
    rw [h1]
    simp [stopDriving, h, List.filter]

/-- Witness for claim C4 at the initial state. -/
theorem claim_C4_witness :
    stopDriving (stopDriving initialState) = stopDriving initialState ∧
    stopDriving initialState = { initialState with status := "Parado" } ∧
    (stopDriving (startDriving "http://b" envAlert initialState)).armed = [] :=
  ⟨(claim_C4 "http://b" envAlert initialState).2.2.2.2.1,
   (claim_C4 "http://b" envAlert initialState).2.2.2.2.2.1 rfl rfl rfl,
   (claim_C4 "http://b" envAlert initialState).2.2.2.2.2.2 rfl⟩

/-- Claim C10: a second startDriving overwrites the stored timer handle
without cancelling the first interval — both intervals stay armed, so the
invariant of at most one armed repeating timer fails — and a following
stopDriving cancels only the most recently armed interval, leaving the
first one firing. -/
theorem claim_C10 (base : String) (env env2 : TickEnv) (s : AppState) (h : s.armed = []) :
    (startDriving base env s).timer = some s.nextId ∧
    (startDriving base env s).armed = [s.nextId] ∧
    (startDriving base env2 (startDriving base env s)).timer = some (s.nextId + 1) ∧
    (startDriving base env2 (startDriving base env s)).armed = [s.nextId, s.nextId + 1] ∧
    (startDriving base env2 (startDriving base env s)).armed.length = 2 ∧
    (stopDriving (startDriving base env2 (startDriving base env s))).armed = [s.nextId] := by
  obtain ⟨st1, lh1, so1, h1⟩ := startDriving_shape base env s
  obtain ⟨st2, lh2, so2, h2⟩ := startDriving_shape base env2 (startDriving base env s)
  rw [h1] at h2
  dsimp only at h2
  rw [h1, h2, h]
  have e : (s.nextId != s.nextId + 1) = true := by simp
  refine ⟨rfl, rfl, rfl, rfl, rfl, ?_⟩
  simp [stopDriving, h, List.filter, e]

/-- Witness for claim C10 at the initial state. -/
theorem claim_C10_witness :
    (startDriving "http://b" envEmpty (startDriving "http://b" envAlert initialState)).armed
      = [0, 1] ∧
    (stopDriving
      (startDriving "http://b" envEmpty (startDriving "http://b" envAlert initialState))).armed
      = [0] :=
  ⟨(claim_C10 "http://b" envAlert envEmpty initialState rfl).2.2.2.1,
   (claim_C10 "http://b" envAlert envEmpty initialState rfl).2.2.2.2.2⟩

/-- The full tick equals its continuation from the first await applied to
the state the synchronous prefix (busy := true, locating status) produced. -/
theorem tick_eq_resume (base : String) (env : TickEnv) (s : AppState) :
    tick base env s
      = tickResume base env { s with busy := true, status := "Obteniendo ubicación…" } := by
  rcases env with ⟨pos, resp, audio⟩
  rcases s with ⟨d, st, b, lh, tm, ar, ni, so⟩
  unfold tick tickRun tickResume
  rcases pos with _ | c
  · rfl
  · rcases resp with _ | r
    · rfl
    · dsimp only
      split
      · rfl
      · split
        · rfl
        · rfl
        · rfl

/-- The continuation of a tick always overwrites the status: no path leaves
the stopped status in place. -/
theorem tickResume_status_ne (base : String) (env : TickEnv) (s : AppState) :
    (tickResume base env s).status ≠ "Parado" := by
  rcases env with ⟨pos, resp, audio⟩
  unfold tickResume
  rcases pos with _ | c
  · dsimp only
    decide
  · rcases resp with _ | r
    · dsimp only
      decide
    · dsimp only
      split
      · dsimp only
        exact backend_status_ne_parado (toString r.status)
      · split
        · dsimp only
          decide
        · dsimp only
          decide
        · dsimp only
          rw [beep_status]
          dsimp only
          decide

/-- The continuation of a tick clears busy on every path. -/
theorem tickResume_busy (base : String) (env : TickEnv) (s : AppState) :
    (tickResume base env s).busy = false := by
  rcases env with ⟨pos, resp, audio⟩
  unfold tickResume
  rcases pos with _ | c
  · rfl
  · rcases resp with _ | r
    · rfl
    · dsimp only
      split
      · rfl
      · split
        · rfl
        · rfl
        · rfl

/-- No step of the continuation reads the driving flag: changing driving
before the continuation runs only changes driving in its result. -/
theorem tickResume_driving_comm (base : String) (env : TickEnv) (s : AppState) (d : Bool) :
    tickResume base env { s with driving := d }
      = { tickResume base env s with driving := d } := by
  rcases env with ⟨pos, resp, audio⟩
  rcases s with ⟨d0, st, b, lh, tm, ar, ni, so⟩
  unfold tickResume beep
  rcases pos with _ | c
  · rfl
  · rcases resp with _ | r
    · rfl
    · dsimp only
      split
      · rfl
      · split
        · rfl
        · rfl
        · cases so
          · cases audio.createSound <;> rfl
          · rfl

/-- Claim C5: stopping does not neutralise a tick that is already in
flight: the continuation after the first await never reads the driving
flag, and applied to the stopped state it overwrites the Parado status and
rewrites the busy flag on every path. -/
theorem claim_C5 (base : String) (env : TickEnv) (s : AppState) :
    tick base env s
      = tickResume base env { s with busy := true, status := "Obteniendo ubicación…" } ∧
    (tickResume base env (stopDriving s)).status ≠ "Parado" ∧
    (tickResume base env (stopDriving s)).busy = false ∧
    (∀ d, tickResume base env { stopDriving s with driving := d }
      = { tickResume base env (stopDriving s) with driving := d }) :=
  ⟨tick_eq_resume base env s,
   tickResume_status_ne base env (stopDriving s),
   tickResume_busy base env (stopDriving s),
   fun d => tickResume_driving_comm base env (stopDriving s) d⟩

/-- Witness for claim C5 at the concrete alert environment: the resolving
tick overwrites the stopped status with ALERTA. -/
theorem claim_C5_witness :
    (tickResume "http://b" envAlert (stopDriving initialState)).status ≠ "Parado" ∧
    (tickResume "http://b" envAlert (stopDriving initialState)).busy = false :=
  ⟨(claim_C5 "http://b" envAlert initialState).2.1,
   (claim_C5 "http://b" envAlert initialState).2.2.1⟩

end TrafficAlert
